import Mathlib

/-!
Verification development for the mcp-wachat operation adapter layer
(src/tools/messages.ts in its two revisions, src/index.ts, and the
spec of src/tools/groups.ts).

The TypeScript code is shallowly embedded: JSON/JavaScript values are the
inductive type JSVal, JavaScript property access (which can throw a
TypeError on null/undefined) is modelled in the Except monad, optional
chaining is a total function returning JSVal.undef, and the
fetch/response.json side of a call is abstracted as a FetchOutcome value
describing what the network returned.  Each adapter returns its
CallToolResult together with a Bool recording whether the HTTP transport
was invoked at all.
-/

/-- Model of a JavaScript runtime value as observed by the adapter code:
the JSON values produced by response.json() plus the distinguished
undefined value produced by missing properties and optional chaining. -/
inductive JSVal where
  | undef : JSVal
  | null : JSVal
  | bool : Bool → JSVal
  | num : Int → JSVal
  | str : String → JSVal
  | arr : List JSVal → JSVal
  | obj : List (String × JSVal) → JSVal
deriving Repr

/-- JavaScript truthiness of a value (NaN does not arise in this model:
numbers are modelled as integers and no arithmetic is performed). -/
def JSVal.truthy : JSVal → Bool
  | .undef => false
  | .null => false
  | .bool b => b
  | .num n => n != 0
  | .str s => !s.isEmpty
  | .arr _ => true
  | .obj _ => true

/-- Optional-chaining property access v?.p: null and undefined yield
undefined instead of throwing; objects look the property up; primitives
and arrays yield undefined (none of the property names read by the
adapter — content, text, status, key, id, fromMe, remoteJid, participant,
message — is a built-in property of a primitive or an array). -/
def JSVal.optProp : JSVal → String → JSVal
  | .obj fs, p => (fs.lookup p).getD .undef
  | _, _ => JSVal.undef  -- primitives and arrays: none of the read properties exists

/-- Plain property access v.p, which throws a TypeError when v is null or
undefined; on any other value it agrees with optional chaining. -/
def JSVal.getProp : JSVal → String → Except String JSVal
  | .undef, p => .error ("TypeError: Cannot read properties of undefined (reading " ++ p ++ ")")
  | .null, p => .error ("TypeError: Cannot read properties of null (reading " ++ p ++ ")")
  | v, p => .ok (v.optProp p)

/-- Optional-chaining index access v?.[i]. -/
def JSVal.optIndex : JSVal → Nat → JSVal
  | .arr xs, i => (xs.get? i).getD .undef
  | .obj fs, i => (fs.lookup (toString i)).getD .undef
  | .str s, i => (s.data.get? i).elim .undef (fun c => .str (String.mk [c]))
  | _, _ => JSVal.undef  -- primitives: no index access succeeds

/-- JavaScript strict equality of a value against a string literal. -/
def JSVal.strictEqStr : JSVal → String → Bool
  | .str s, t => s == t
  | _, _ => false

/-- JavaScript a || b: a when truthy, otherwise b. -/
def jsOr (a b : JSVal) : JSVal := if a.truthy then a else b

/-- Whether a value is the JavaScript null or undefined. -/
def JSVal.nullish : JSVal → Bool
  | .undef => true
  | .null => true
  | _ => false

/-- Whether a value is a non-empty string. -/
def JSVal.isNonemptyString : JSVal → Bool
  | .str s => !s.isEmpty
  | _ => false

/-- Process configuration read from the environment at startup
(WACHAT_API_BASE with its default, WACHAT_API_TOKEN, WACHAT_SESSION_ID).
An env variable is modelled as Option String: none when unset. -/
structure Config where
  apiBase : String
  apiToken : Option String
  sessionId : Option String

/-- JavaScript falsiness of an env variable of type string | undefined:
unset, or set to the empty string. -/
def envFalsy : Option String → Bool
  | none => true
  | some s => s.isEmpty

/-- The guard condition of every adapter:
if (!WACHAT_API_TOKEN || !sessionId). -/
def Config.missingCredentials (c : Config) : Bool :=
  envFalsy c.apiToken || envFalsy c.sessionId

/-- The configuration error message returned by every adapter. -/
def configErrorMessage : String :=
  "Error de configuración del servidor: WACHAT_API_TOKEN o WACHAT_SESSION_ID no están definidos."

/-- The result of response.json(): either a parsed JSON value or a thrown
parse failure carrying the error message. -/
inductive BodyOutcome where
  | parsed : JSVal → BodyOutcome
  | parseError : String → BodyOutcome
deriving Repr

/-- What the await fetch(...) exchange produced: a response with an HTTP
status, a status text and a body outcome, or a thrown network-level
failure carrying the error message. -/
inductive FetchOutcome where
  | response : Nat → String → BodyOutcome → FetchOutcome
  | networkError : String → FetchOutcome
deriving Repr

/-- response.ok per the Fetch standard: status in the range [200, 299]. -/
def okStatus (status : Nat) : Bool := 200 ≤ status && status ≤ 299

/-- A {type: "text", text: ...} content item of a CallToolResult. -/
def textContent (v : JSVal) : JSVal :=
  .obj [("type", .str "text"), ("text", v)]

/-- The CallToolResult shape returned to the MCP host, parameterized by
the structuredContent variant.  isError is absent (hence false) on the
success path. -/
structure CallToolResult (σ : Type) where
  isError : Bool
  content : List JSVal
  structuredContent : σ
deriving Repr

namespace Messages

/-!
Embedding of the current revision of src/tools/messages.ts: the shared
helper sendApiRequest returning {success, messageKey} and the four
execute functions built on it.
-/

/-- The messageKey object built in the success branch of sendApiRequest:
each field is copied from messageData.key by plain property access and
may therefore be undefined. -/
structure MessageKeyOut where
  remoteJid : JSVal
  fromMe : JSVal
  id : JSVal
  participant : JSVal
deriving Repr

/-- The structuredContent of the current sendApiRequest: success,
optionally a messageKey (undefined when absent), optionally an error. -/
structure StructuredKey where
  success : Bool
  messageKey : Option MessageKeyOut
  error : Option JSVal
deriving Repr

/-- The result returned when WACHAT_API_TOKEN or WACHAT_SESSION_ID is
falsy, before any network activity. -/
def configErrorResult : CallToolResult StructuredKey :=
  { isError := true
    content := [textContent (.str configErrorMessage)]
    structuredContent := { success := false, messageKey := none, error := some (.str configErrorMessage) } }

/-- The try block of sendApiRequest: fetch, response.json(), then either
the response.ok branch (extract messageData = responseData.content?.[0]?.text,
build the messageKey when messageData?.key is truthy, and set success to
messageData?.status === "PENDING") or the error branch (errorDetail =
responseData.message || a synthesized message).  Throw points (network
failure, JSON parse failure, property access on a nullish responseData)
are Except.error values. -/
def tryBlock (outcome : FetchOutcome) (errLabel : String) :
    Except String (CallToolResult StructuredKey) :=
  match outcome with
  | .networkError msg => .error msg
  | .response status statusText body =>
    match body with
    | .parseError msg => .error msg
    | .parsed responseData =>
      if okStatus status then do
        let contentVal ← responseData.getProp "content"
        let messageData := (contentVal.optIndex 0).optProp "text"
        let k := messageData.optProp "key"
        let messageKey : Option MessageKeyOut :=
          if k.truthy then
            some { remoteJid := k.optProp "remoteJid"
                   fromMe := k.optProp "fromMe"
                   id := k.optProp "id"
                   participant := k.optProp "participant" }
          else none
        pure { isError := false
               content := []
               structuredContent :=
                 { success := (messageData.optProp "status").strictEqStr "PENDING"
                   messageKey := messageKey
                   error := none } }
      else do
        let m ← responseData.getProp "message"
        let errorDetail :=
          jsOr m (.str (errLabel ++ ": " ++ toString status ++ " " ++ statusText))
        pure { isError := true
               content := [textContent errorDetail]
               structuredContent := { success := false, messageKey := none, error := some errorDetail } }

/-- The catch handler: error.message || "Error desconocido al contactar
la API.", wrapped as an isError result. -/
def catchResult (msg : String) : CallToolResult StructuredKey :=
  let catchErrorDetail := if msg.isEmpty then "Error desconocido al contactar la API." else msg
  { isError := true
    content := [textContent (.str catchErrorDetail)]
    structuredContent := { success := false, messageKey := none, error := some (.str catchErrorDetail) } }

/-- sendApiRequest of the current messages.ts.  The Bool component
records whether fetch was invoked: false exactly on the configuration
guard, true otherwise.  The payload is sent over the wire and does not
influence the modelled response, which is abstracted by outcome. -/
def sendApiRequest (cfg : Config) (payload : JSVal) (errLabel : String)
    (outcome : FetchOutcome) : CallToolResult StructuredKey × Bool :=
  if cfg.missingCredentials then (configErrorResult, false)
  else
    (match tryBlock outcome errLabel with
     | .ok r => r
     | .error msg => catchResult msg, true)

/-- Validated input of the sendMessage tool. -/
structure SendMessageInput where
  jid : String
  messageText : String
  isGroup : Bool

/-- The upstream payload built by executeSendMessage. -/
def sendMessagePayload (input : SendMessageInput) : JSVal :=
  .obj [("jid", .str input.jid),
        ("type", .str (if input.isGroup then "group" else "number")),
        ("message", .obj [("text", .str input.messageText)])]

/-- executeSendMessage of the current messages.ts. -/
def executeSendMessage (cfg : Config) (input : SendMessageInput)
    (outcome : FetchOutcome) : CallToolResult StructuredKey × Bool :=
  sendApiRequest cfg (sendMessagePayload input) "Error al enviar mensaje" outcome

/-- Validated input of the sendLocation tool.  JavaScript numbers are
modelled as integers; only their identity matters here. -/
structure SendLocationInput where
  jid : String
  latitude : Int
  longitude : Int
  isGroup : Bool

/-- The upstream payload built by executeSendLocation. -/
def sendLocationPayload (input : SendLocationInput) : JSVal :=
  .obj [("jid", .str input.jid),
        ("type", .str (if input.isGroup then "group" else "number")),
        ("message", .obj [("location",
          .obj [("degreesLatitude", .num input.latitude),
                ("degreesLongitude", .num input.longitude)])])]

/-- executeSendLocation of the current messages.ts. -/
def executeSendLocation (cfg : Config) (input : SendLocationInput)
    (outcome : FetchOutcome) : CallToolResult StructuredKey × Bool :=
  sendApiRequest cfg (sendLocationPayload input) "Error al enviar ubicación" outcome

/-- Validated input of the sendImage tool. -/
structure SendImageInput where
  jid : String
  imageUrl : String
  caption : Option String
  isGroup : Bool

/-- The upstream payload built by executeSendImage; an absent caption is
the undefined value in the object literal. -/
def sendImagePayload (input : SendImageInput) : JSVal :=
  .obj [("jid", .str input.jid),
        ("type", .str (if input.isGroup then "group" else "number")),
        ("message", .obj [("image", .obj [("url", .str input.imageUrl)]),
                          ("caption", match input.caption with
                                      | some c => JSVal.str c
                                      | none => JSVal.undef)])]

/-- executeSendImage of the current messages.ts. -/
def executeSendImage (cfg : Config) (input : SendImageInput)
    (outcome : FetchOutcome) : CallToolResult StructuredKey × Bool :=
  sendApiRequest cfg (sendImagePayload input) "Error al enviar imagen" outcome

/-- A MessageKey as validated by MessageKeySchema: remoteJid string,
fromMe boolean, id string, participant optional string. -/
structure MessageKeyIn where
  remoteJid : String
  fromMe : Bool
  id : String
  participant : Option String
deriving Repr

/-- The JavaScript object a validated MessageKey denotes; an absent
optional participant key is simply not present on the object. -/
def MessageKeyIn.toJSVal (k : MessageKeyIn) : JSVal :=
  .obj ([("remoteJid", .str k.remoteJid),
         ("fromMe", .bool k.fromMe),
         ("id", .str k.id)] ++
        (match k.participant with
         | some p => [("participant", JSVal.str p)]
         | none => []))

/-- Validated input of the sendReaction tool. -/
structure SendReactionInput where
  messageKey : MessageKeyIn
  reactionText : String
  isGroup : Bool

/-- The upstream payload built by executeSendReaction: the target jid is
input.messageKey.remoteJid, the key of the react object is the full
caller-supplied messageKey, and the text is the reactionText. -/
def sendReactionPayload (input : SendReactionInput) : JSVal :=
  .obj [("jid", .str input.messageKey.remoteJid),
        ("type", .str (if input.isGroup then "group" else "number")),
        ("message", .obj [("react",
          .obj [("key", input.messageKey.toJSVal),
                ("text", .str input.reactionText)])])]

/-- executeSendReaction of the current messages.ts. -/
def executeSendReaction (cfg : Config) (input : SendReactionInput)
    (outcome : FetchOutcome) : CallToolResult StructuredKey × Bool :=
  sendApiRequest cfg (sendReactionPayload input) "Error al enviar reacción" outcome

/-- The field names declared by sendReactionOutputSchema
(z.object with success, optional messageId, optional error). -/
def sendReactionOutputFields : List String := ["success", "messageId", "error"]

/-- The field names actually present on a StructuredKey result object:
success always, messageKey and error when not undefined. -/
def StructuredKey.fieldNames (sc : StructuredKey) : List String :=
  ["success"] ++
  (match sc.messageKey with | some _ => ["messageKey"] | none => []) ++
  (match sc.error with | some _ => ["error"] | none => [])

end Messages

namespace MessagesId

/-!
Embedding of the messageId-returning variant of sendApiRequest found in
the earlier revision of src/tools/messages.ts (whose executeSendMessage
and executeSendLocation inline the identical logic) and in the unnamed
source part holding that revision of the shared helper.
-/

/-- The structuredContent of the messageId variant: success, and on the
response.ok path messageId = messageData?.key?.id || "Unknown" and
fromMe = messageData?.key?.fromMe || false; error on the failure paths. -/
structure StructuredId where
  success : Bool
  messageId : Option JSVal
  fromMe : Option JSVal
  error : Option JSVal
deriving Repr

/-- The configuration failure result of the messageId variant. -/
def configErrorResult : CallToolResult StructuredId :=
  { isError := true
    content := [textContent (.str configErrorMessage)]
    structuredContent := { success := false, messageId := none, fromMe := none, error := some (.str configErrorMessage) } }

/-- The try block of the messageId variant of sendApiRequest. -/
def tryBlock (outcome : FetchOutcome) (errLabel : String) :
    Except String (CallToolResult StructuredId) :=
  match outcome with
  | .networkError msg => .error msg
  | .response status statusText body =>
    match body with
    | .parseError msg => .error msg
    | .parsed responseData =>
      if okStatus status then do
        let contentVal ← responseData.getProp "content"
        let messageData := (contentVal.optIndex 0).optProp "text"
        pure { isError := false
               content := []
               structuredContent :=
                 { success := (messageData.optProp "status").strictEqStr "PENDING"
                   messageId := some (jsOr ((messageData.optProp "key").optProp "id") (.str "Unknown"))
                   fromMe := some (jsOr ((messageData.optProp "key").optProp "fromMe") (.bool false))
                   error := none } }
      else do
        let m ← responseData.getProp "message"
        let errorDetail :=
          jsOr m (.str (errLabel ++ ": " ++ toString status ++ " " ++ statusText))
        pure { isError := true
               content := [textContent errorDetail]
               structuredContent := { success := false, messageId := none, fromMe := none, error := some errorDetail } }

/-- The catch handler of the messageId variant. -/
def catchResult (msg : String) : CallToolResult StructuredId :=
  let catchErrorDetail := if msg.isEmpty then "Error desconocido al contactar la API." else msg
  { isError := true
    content := [textContent (.str catchErrorDetail)]
    structuredContent := { success := false, messageId := none, fromMe := none, error := some (.str catchErrorDetail) } }

/-- sendApiRequest of the messageId variant; the Bool records whether
fetch was invoked. -/
def sendApiRequest (cfg : Config) (payload : JSVal) (errLabel : String)
    (outcome : FetchOutcome) : CallToolResult StructuredId × Bool :=
  if cfg.missingCredentials then (configErrorResult, false)
  else
    (match tryBlock outcome errLabel with
     | .ok r => r
     | .error msg => catchResult msg, true)

end MessagesId

/-!
Model of the zod validation of sendReactionInputSchema.reactionText:
z.string().emoji().min(1).  The zod emoji check is the anchored regex
matching one OR MORE code points each of which has the Unicode property
Extended_Pictographic or Emoji_Component.
-/

/-- The Unicode Extended_Pictographic property, by the code point ranges
of the Unicode emoji-data file.  Every code point accepted here carries
the property; the emoji used in this development (U+1F600) lies in the
range 0x1F546-0x1F64F. -/
def isExtendedPictographic (c : Char) : Bool :=
  let n := c.toNat
  (n == 0xA9) || (n == 0xAE) || (n == 0x203C) || (n == 0x2049) ||
  (n == 0x2122) || (n == 0x2139) || (0x2194 ≤ n && n ≤ 0x2199) ||
  (0x21A9 ≤ n && n ≤ 0x21AA) || (0x231A ≤ n && n ≤ 0x231B) ||
  (n == 0x2328) || (n == 0x2388) || (n == 0x23CF) ||
  (0x23E9 ≤ n && n ≤ 0x23F3) || (0x23F8 ≤ n && n ≤ 0x23FA) ||
  (n == 0x24C2) || (0x25AA ≤ n && n ≤ 0x25AB) || (n == 0x25B6) ||
  (n == 0x25C0) || (0x25FB ≤ n && n ≤ 0x25FE) ||
  (0x2600 ≤ n && n ≤ 0x2605) || (0x2607 ≤ n && n ≤ 0x2612) ||
  (0x2614 ≤ n && n ≤ 0x2685) || (0x2690 ≤ n && n ≤ 0x2705) ||
  (0x2708 ≤ n && n ≤ 0x2712) || (n == 0x2714) || (n == 0x2716) ||
  (n == 0x271D) || (n == 0x2721) || (n == 0x2728) ||
  (0x2733 ≤ n && n ≤ 0x2734) || (n == 0x2744) || (n == 0x2747) ||
  (n == 0x274C) || (n == 0x274E) || (0x2753 ≤ n && n ≤ 0x2755) ||
  (n == 0x2757) || (0x2763 ≤ n && n ≤ 0x2767) ||
  (0x2795 ≤ n && n ≤ 0x2797) || (n == 0x27A1) || (n == 0x27B0) ||
  (n == 0x27BF) || (0x2934 ≤ n && n ≤ 0x2935) ||
  (0x2B05 ≤ n && n ≤ 0x2B07) || (0x2B1B ≤ n && n ≤ 0x2B1C) ||
  (n == 0x2B50) || (n == 0x2B55) || (n == 0x3030) || (n == 0x303D) ||
  (n == 0x3297) || (n == 0x3299) ||
  (0x1F000 ≤ n && n ≤ 0x1F0FF) || (0x1F10D ≤ n && n ≤ 0x1F10F) ||
  (n == 0x1F12F) || (0x1F16C ≤ n && n ≤ 0x1F171) ||
  (0x1F17E ≤ n && n ≤ 0x1F17F) || (n == 0x1F18E) ||
  (0x1F191 ≤ n && n ≤ 0x1F19A) || (0x1F1AD ≤ n && n ≤ 0x1F1E5) ||
  (0x1F201 ≤ n && n ≤ 0x1F20F) || (n == 0x1F21A) || (n == 0x1F22F) ||
  (0x1F232 ≤ n && n ≤ 0x1F23A) || (0x1F23C ≤ n && n ≤ 0x1F23F) ||
  (0x1F249 ≤ n && n ≤ 0x1F3FA) || (0x1F400 ≤ n && n ≤ 0x1F53D) ||
  (0x1F546 ≤ n && n ≤ 0x1F64F) || (0x1F680 ≤ n && n ≤ 0x1F6FF) ||
  (0x1F774 ≤ n && n ≤ 0x1F77F) || (0x1F7D5 ≤ n && n ≤ 0x1F7FF) ||
  (0x1F80C ≤ n && n ≤ 0x1F80F) || (0x1F848 ≤ n && n ≤ 0x1F84F) ||
  (0x1F85A ≤ n && n ≤ 0x1F85F) || (0x1F888 ≤ n && n ≤ 0x1F88F) ||
  (0x1F8AE ≤ n && n ≤ 0x1F8FF) || (0x1F90C ≤ n && n ≤ 0x1F93A) ||
  (0x1F93C ≤ n && n ≤ 0x1F945) || (0x1F947 ≤ n && n ≤ 0x1FAFF) ||
  (0x1FC00 ≤ n && n ≤ 0x1FFFD)

/-- The Unicode Emoji_Component property: keycap bases, digits, zero
width joiner, combining enclosing keycap, variation selector 16,
regional indicators, skin tone modifiers and tag characters. -/
def isEmojiComponent (c : Char) : Bool :=
  let n := c.toNat
  (n == 0x23) || (n == 0x2A) || (0x30 ≤ n && n ≤ 0x39) ||
  (n == 0x200D) || (n == 0x20E3) || (n == 0xFE0F) ||
  (0x1F1E6 ≤ n && n ≤ 0x1F1FF) || (0x1F3FB ≤ n && n ≤ 0x1F3FF) ||
  (0xE0020 ≤ n && n ≤ 0xE007F)

/-- One code point of the zod emoji regex alternation. -/
def zodEmojiChar (c : Char) : Bool :=
  isExtendedPictographic c || isEmojiComponent c

/-- The zod z.string().emoji() check: the anchored regex accepts exactly
the non-empty strings all of whose code points satisfy the alternation. -/
def zodEmojiAccepts (s : String) : Bool :=
  (!s.isEmpty) && s.data.all zodEmojiChar

/-- The full reactionText validation of sendReactionInputSchema:
z.string().emoji().min(1). -/
def reactionTextAccepted (s : String) : Bool :=
  zodEmojiAccepts s && 1 ≤ s.length

namespace Groups

/-- Modelled from the spec: the structuredContent of the searchGroups
tool, src/tools/groups.ts not being among the provided sources.  Per the
spec the output fields are success, optional groups, optional error. -/
structure StructuredGroups where
  success : Bool
  groups : Option (List JSVal)
  error : Option JSVal
deriving Repr

/-- Modelled from the spec: the configuration failure result of
executeSearchGroups. -/
def configErrorResult : CallToolResult StructuredGroups :=
  { isError := true
    content := [textContent (.str configErrorMessage)]
    structuredContent := { success := false, groups := none, error := some (.str configErrorMessage) } }

/-- Modelled from the spec: a best-effort Group contract check used by
the searchGroups normalizer — an element must be an object carrying
string id and subject. -/
def groupValid (v : JSVal) : Bool :=
  match v with
  | .obj fs =>
    (match fs.lookup "id" with | some (.str _) => true | _ => false) &&
    (match fs.lookup "subject" with | some (.str _) => true | _ => false)
  | _ => false

/-- Modelled from the spec: executeSearchGroups of src/tools/groups.ts,
which is not among the provided sources.  Per the spec: requires
apiToken and sessionId and fails immediately with a ConfigurationError
result before any network I/O when either is absent; otherwise performs
the GET exchange, accepts rawBody.data as an array or rawBody itself as
an array, validates every element against the Group contract, and on a
non-2xx status or any normalization failure returns success false with
an error.  The Bool records whether the transport was invoked. -/
def executeSearchGroups (cfg : Config) (name : Option String)
    (outcome : FetchOutcome) : CallToolResult StructuredGroups × Bool :=
  if cfg.missingCredentials then (configErrorResult, false)
  else
    (match outcome with
     | .networkError msg =>
       { isError := true, content := [textContent (.str msg)]
         structuredContent := { success := false, groups := none, error := some (.str msg) } }
     | .response status statusText body =>
       match body with
       | .parseError msg =>
         { isError := true, content := [textContent (.str msg)]
           structuredContent := { success := false, groups := none, error := some (.str msg) } }
       | .parsed responseData =>
         if okStatus status then
           let found : Option (List JSVal) :=
             match responseData with
             | .arr xs => some xs
             | .obj fs =>
               (match fs.lookup "data" with
                | some (.arr xs) => some xs
                | _ => none)
             | _ => none
           match found with
           | some xs =>
             if xs.all groupValid then
               { isError := false, content := []
                 structuredContent := { success := true, groups := some xs, error := none } }
             else
               { isError := true, content := [textContent (.str "searchGroups normalization failed")]
                 structuredContent := { success := false, groups := none, error := some (.str "searchGroups normalization failed") } }
           | none =>
             { isError := true, content := [textContent (.str "searchGroups normalization failed")]
               structuredContent := { success := false, groups := none, error := some (.str "searchGroups normalization failed") } }
         else
           { isError := true
             content := [textContent (.str ("searchGroups failed: " ++ toString status ++ " " ++ statusText))]
             structuredContent :=
               { success := false, groups := none
                 error := some (.str ("searchGroups failed: " ++ toString status ++ " " ++ statusText)) } }, true)

end Groups

/-- An example configuration with both credentials present. -/
def goodCfg : Config :=
  { apiBase := "https://whatsapp.taptapp.xyz", apiToken := some "token", sessionId := some "session" }

/-- The nested upstream response shape {content: [{text: {status, key}}]}. -/
def nestedBody (statusVal : String) (key : JSVal) : JSVal :=
  .obj [("content", .arr [.obj [("text", .obj [("status", .str statusVal), ("key", key)])]])]

/-- An upstream key object with the given fields, the optional
participant included only when present. -/
def upstreamKey (jid kid : String) (fm : Bool) (part : Option String) : JSVal :=
  .obj ([("id", .str kid), ("fromMe", .bool fm), ("remoteJid", .str jid)] ++
        (match part with | some p => [("participant", JSVal.str p)] | none => []))

/-- A sample upstream key object. -/
def sampleKeyJS : JSVal := upstreamKey "5210000000000" "ABC123" true none

/-- A sample validated sendMessage input. -/
def sampleMessageInput : Messages.SendMessageInput :=
  { jid := "5210000000000", messageText := "hi", isGroup := false }

/-- A sample validated sendReaction input. -/
def sampleReactionInput : Messages.SendReactionInput :=
  { messageKey := { remoteJid := "5210000000000", fromMe := true, id := "ABC123", participant := none }
    reactionText := "😀"
    isGroup := false }

/-- A string built by the synthesized upstream-failure template is never
empty: it contains at least the colon and the blank. -/
theorem synthMsg_ne_empty (a b c : String) : a ++ ": " ++ b ++ " " ++ c ≠ "" := by
  intro h
  have hl := congrArg String.length h
  have h2 : (": " : String).length = 2 := rfl
  have h1 : (" " : String).length = 1 := rfl
  have h0 : ("" : String).length = 0 := rfl
  simp [String.length_append, h2, h1, h0] at hl

/-- A non-empty string is truthy. -/
theorem str_truthy_of_ne_empty {s : String} (h : s ≠ "") : JSVal.truthy (.str s) = true := by
  have he : s.isEmpty = false := by
    rcases hb : s.isEmpty with _ | _
    · rfl
    · exact absurd ((String.isEmpty_iff s).mp hb) h
  simp [JSVal.truthy, he]

/-- C1: with WACHAT_API_TOKEN or WACHAT_SESSION_ID absent or empty,
every operation (the four send tools of the current messages.ts, the
messageId variant of the shared helper, and the spec-modelled
searchGroups) returns success false together with the non-empty
configuration error message, and the transport is never invoked. -/
theorem C1_missing_config_fails_without_fetch
    (cfg : Config) (h : cfg.missingCredentials = true)
    (m : Messages.SendMessageInput) (l : Messages.SendLocationInput)
    (i : Messages.SendImageInput) (r : Messages.SendReactionInput)
    (gname : Option String) (payload : JSVal) (errLabel : String)
    (outcome : FetchOutcome) :
    Messages.executeSendMessage cfg m outcome = (Messages.configErrorResult, false) ∧
    Messages.executeSendLocation cfg l outcome = (Messages.configErrorResult, false) ∧
    Messages.executeSendImage cfg i outcome = (Messages.configErrorResult, false) ∧
    Messages.executeSendReaction cfg r outcome = (Messages.configErrorResult, false) ∧
    MessagesId.sendApiRequest cfg payload errLabel outcome = (MessagesId.configErrorResult, false) ∧
    Groups.executeSearchGroups cfg gname outcome = (Groups.configErrorResult, false) ∧
    Messages.configErrorResult.structuredContent.success = false ∧
    Messages.configErrorResult.structuredContent.error = some (.str configErrorMessage) ∧
    MessagesId.configErrorResult.structuredContent.success = false ∧
    MessagesId.configErrorResult.structuredContent.error = some (.str configErrorMessage) ∧
    Groups.configErrorResult.structuredContent.success = false ∧
    Groups.configErrorResult.structuredContent.error = some (.str configErrorMessage) ∧
    configErrorMessage ≠ "" := by
  refine ⟨?_, ?_, ?_, ?_, ?_, ?_, rfl, rfl, rfl, rfl, rfl, rfl, by decide⟩ <;>
    simp [Messages.executeSendMessage, Messages.executeSendLocation,
      Messages.executeSendImage, Messages.executeSendReaction,
      Messages.sendApiRequest, MessagesId.sendApiRequest,
      Groups.executeSearchGroups, h]

/-- C1 witness: a concrete configuration with the token unset and a
session present is rejected by sendMessage without touching the
transport. -/
theorem C1_missing_config_fails_without_fetch_witness :
    Messages.executeSendMessage
        { apiBase := "https://whatsapp.taptapp.xyz", apiToken := none, sessionId := some "session" }
        sampleMessageInput (.response 200 "OK" (.parsed (.obj []))) =
      (Messages.configErrorResult, false) :=
  (C1_missing_config_fails_without_fetch
    { apiBase := "https://whatsapp.taptapp.xyz", apiToken := none, sessionId := some "session" }
    rfl sampleMessageInput
    { jid := "5210000000000", latitude := 19, longitude := -99, isGroup := false }
    { jid := "5210000000000", imageUrl := "https://example.com/a.png", caption := none, isGroup := false }
    sampleReactionInput none (.obj []) "Error al enviar mensaje"
    (.response 200 "OK" (.parsed (.obj [])))).1

/-- C7: for every validated sendReaction input, the payload built is
exactly the object the spec describes, read field for field: the target
jid is the remoteJid of the reacted-to message key (there is no
caller-supplied jid on the input at all), the type is group or number by
isGroup, and the message holds react with the full key and the reaction
text; and executeSendReaction sends exactly this payload. -/
theorem C7_reaction_payload_shape
    (cfg : Config) (input : Messages.SendReactionInput) (outcome : FetchOutcome) :
    Messages.sendReactionPayload input =
      .obj [("jid", .str input.messageKey.remoteJid),
            ("type", .str (if input.isGroup then "group" else "number")),
            ("message", .obj [("react",
              .obj [("key", input.messageKey.toJSVal),
                    ("text", .str input.reactionText)])])] ∧
    (Messages.sendReactionPayload input).optProp "jid" = .str input.messageKey.remoteJid ∧
    Messages.executeSendReaction cfg input outcome =
      Messages.sendApiRequest cfg (Messages.sendReactionPayload input) "Error al enviar reacción" outcome :=
  ⟨rfl, rfl, rfl⟩

/-- Any ok result of the current try block satisfies: a true success
flag comes with an absent error (the response.ok branch never sets
error, and the other branch sets success to false). -/
theorem tryBlock_key_success_error_none {outcome : FetchOutcome} {errLabel : String}
    {r : CallToolResult Messages.StructuredKey}
    (h : Messages.tryBlock outcome errLabel = .ok r)
    (hs : r.structuredContent.success = true) :
    r.structuredContent.error = none := by
  cases outcome with
  | networkError msg => simp [Messages.tryBlock] at h
  | response status st body =>
    cases body with
    | parseError msg => simp [Messages.tryBlock] at h
    | parsed v =>
      rcases hok : okStatus status with _ | _ <;>
        cases v <;>
          simp [Messages.tryBlock, hok, JSVal.getProp, Bind.bind, Except.bind, pure,
            Except.pure] at h <;>
          (try subst h) <;> simp_all

/-- Any ok result of the messageId-variant try block satisfies: a true
success flag comes with an absent error. -/
theorem tryBlock_id_success_error_none {outcome : FetchOutcome} {errLabel : String}
    {r : CallToolResult MessagesId.StructuredId}
    (h : MessagesId.tryBlock outcome errLabel = .ok r)
    (hs : r.structuredContent.success = true) :
    r.structuredContent.error = none := by
  cases outcome with
  | networkError msg => simp [MessagesId.tryBlock] at h
  | response status st body =>
    cases body with
    | parseError msg => simp [MessagesId.tryBlock] at h
    | parsed v =>
      rcases hok : okStatus status with _ | _ <;>
        cases v <;>
          simp [MessagesId.tryBlock, hok, JSVal.getProp, Bind.bind, Except.bind, pure,
            Except.pure] at h <;>
          (try subst h) <;> simp_all

/-- C2 counterexample: with valid credentials, a 200 response whose
nested status is "SENT" (not "PENDING") but whose key is fully populated
yields success false with the messageKey data still present and the
error absent — refuting both that success false implies the data fields
are absent and that exactly one of data and error is present. -/
theorem C2_counterexample :
    (Messages.executeSendMessage goodCfg sampleMessageInput
        (.response 200 "OK" (.parsed (nestedBody "SENT" sampleKeyJS)))).1.structuredContent.success = false ∧
    (Messages.executeSendMessage goodCfg sampleMessageInput
        (.response 200 "OK" (.parsed (nestedBody "SENT" sampleKeyJS)))).1.structuredContent.messageKey =
      some { remoteJid := .str "5210000000000", fromMe := .bool true, id := .str "ABC123",
             participant := .undef } ∧
    (Messages.executeSendMessage goodCfg sampleMessageInput
        (.response 200 "OK" (.parsed (nestedBody "SENT" sampleKeyJS)))).1.structuredContent.error = none :=
  ⟨rfl, rfl, rfl⟩

/-- C2 amended: in both revisions of the shared helper, success true
implies the error field is absent (equivalently, a present error implies
success false); the other direction of the claimed invariant fails, as
the counterexample shows: success false does not imply the data fields
are absent, and a result may have neither data nor error. -/
theorem C2_success_implies_error_absent
    (cfg : Config) (payload : JSVal) (errLabel : String) (outcome : FetchOutcome) :
    ((Messages.sendApiRequest cfg payload errLabel outcome).1.structuredContent.success = true →
      (Messages.sendApiRequest cfg payload errLabel outcome).1.structuredContent.error = none) ∧
    ((MessagesId.sendApiRequest cfg payload errLabel outcome).1.structuredContent.success = true →
      (MessagesId.sendApiRequest cfg payload errLabel outcome).1.structuredContent.error = none) := by
  constructor
  · unfold Messages.sendApiRequest
    split
    · intro hs; exact absurd hs (by decide)
    · rcases htb : Messages.tryBlock outcome errLabel with msg | r
      · simp [htb, Messages.catchResult]
      · simp only [htb]
        exact tryBlock_key_success_error_none htb
  · unfold MessagesId.sendApiRequest
    split
    · intro hs; exact absurd hs (by decide)
    · rcases htb : MessagesId.tryBlock outcome errLabel with msg | r
      · simp [htb, MessagesId.catchResult]
      · simp only [htb]
        exact tryBlock_id_success_error_none htb

/-- C2 witness: at a concrete PENDING response the success flag is true
and the amended theorem yields an absent error. -/
theorem C2_success_implies_error_absent_witness :
    (Messages.sendApiRequest goodCfg (.obj []) "Error al enviar mensaje"
        (.response 200 "OK" (.parsed (nestedBody "PENDING" sampleKeyJS)))).1.structuredContent.error = none :=
  (C2_success_implies_error_absent goodCfg (.obj []) "Error al enviar mensaje"
      (.response 200 "OK" (.parsed (nestedBody "PENDING" sampleKeyJS)))).1 rfl

/-- C3 counterexample: with valid credentials, the flat body {id: "X"}
at HTTP 200 yields success false and no messageKey — HTTP success is not
treated as operation success and rawBody.id is never read, refuting the
claim that this input yields success true. -/
theorem C3_counterexample :
    (Messages.executeSendMessage goodCfg sampleMessageInput
        (.response 200 "OK" (.parsed (.obj [("id", .str "X")])))).1.structuredContent.success = false ∧
    (Messages.executeSendMessage goodCfg sampleMessageInput
        (.response 200 "OK" (.parsed (.obj [("id", .str "X")])))).1.structuredContent.messageKey = none :=
  ⟨rfl, rfl⟩

/-- C3 amended: for any send-type operation (any payload and error
label), a flat body {id: s} at any 2xx status yields success false in
both helper revisions: only the nested content[0].text shape is ever
consulted, rawBody.id is not read, the messageKey stays absent, and the
messageId of the older revision is defaulted to the literal "Unknown"
rather than s. -/
theorem C3_flat_body_success_false
    (cfg : Config) (h : cfg.missingCredentials = false)
    (payload : JSVal) (errLabel : String) (s : String)
    (status : Nat) (hs : okStatus status = true) (st : String) :
    (Messages.sendApiRequest cfg payload errLabel
        (.response status st (.parsed (.obj [("id", .str s)])))).1.structuredContent =
      { success := false, messageKey := none, error := none } ∧
    (MessagesId.sendApiRequest cfg payload errLabel
        (.response status st (.parsed (.obj [("id", .str s)])))).1.structuredContent =
      { success := false, messageId := some (.str "Unknown"), fromMe := some (.bool false),
        error := none } := by
  constructor <;>
    simp [Messages.sendApiRequest, MessagesId.sendApiRequest, h, hs,
      Messages.tryBlock, MessagesId.tryBlock, JSVal.getProp, Bind.bind, Except.bind,
      pure, Except.pure, JSVal.optProp, JSVal.optIndex, JSVal.strictEqStr, JSVal.truthy,
      jsOr, List.lookup]

/-- C3 witness for the amended statement at a concrete flat response. -/
theorem C3_flat_body_success_false_witness :
    (Messages.sendApiRequest goodCfg (.obj []) "Error al enviar mensaje"
        (.response 200 "OK" (.parsed (.obj [("id", .str "X")])))).1.structuredContent =
      { success := false, messageKey := none, error := none } :=
  (C3_flat_body_success_false goodCfg rfl (.obj []) "Error al enviar mensaje" "X" 200 rfl "OK").1

/-- C4: with valid credentials, a nested-shape 2xx body whose text has
status PENDING and a populated key yields success true, and the returned
messageKey copies the upstream key field for field: the id equals the
upstream key.id and remoteJid, fromMe and the optional participant are
carried through unchanged (participant is undefined exactly when the
upstream key has none). -/
theorem C4_nested_pending_roundtrip
    (cfg : Config) (h : cfg.missingCredentials = false)
    (payload : JSVal) (errLabel : String)
    (status : Nat) (hs : okStatus status = true) (st : String)
    (jid kid : String) (fm : Bool) (part : Option String) (hk : kid ≠ "") :
    (Messages.sendApiRequest cfg payload errLabel
        (.response status st (.parsed (nestedBody "PENDING" (upstreamKey jid kid fm part))))).1.structuredContent =
      { success := true
        messageKey := some { remoteJid := .str jid, fromMe := .bool fm, id := .str kid,
                             participant := match part with | some p => .str p | none => .undef }
        error := none } := by
  cases part <;>
    simp [Messages.sendApiRequest, h, hs, Messages.tryBlock, nestedBody, upstreamKey,
      JSVal.getProp, Bind.bind, Except.bind, pure, Except.pure, JSVal.optProp,
      JSVal.optIndex, JSVal.strictEqStr, JSVal.truthy, jsOr, List.lookup]

/-- C4 witness at the concrete example of the spec: jid 5210000000000,
upstream key id ABC123, fromMe true, no participant. -/
theorem C4_nested_pending_roundtrip_witness :
    (Messages.sendApiRequest goodCfg (.obj []) "Error al enviar mensaje"
        (.response 200 "OK" (.parsed (nestedBody "PENDING" (upstreamKey "5210000000000" "ABC123" true none))))).1.structuredContent =
      { success := true
        messageKey := some { remoteJid := .str "5210000000000", fromMe := .bool true,
                             id := .str "ABC123", participant := .undef }
        error := none } :=
  C4_nested_pending_roundtrip goodCfg rfl (.obj []) "Error al enviar mensaje" 200 rfl "OK"
    "5210000000000" "ABC123" true none (by decide)

/-- The catch handler of the current helper always reports failure with
a truthy (non-empty string) error. -/
theorem catchResult_key_error_truthy (msg : String) :
    (Messages.catchResult msg).structuredContent.success = false ∧
    ∃ e, (Messages.catchResult msg).structuredContent.error = some e ∧ e.truthy = true := by
  refine ⟨rfl, ⟨_, rfl, ?_⟩⟩
  rcases he : msg.isEmpty with _ | _ <;> simp [Messages.catchResult, JSVal.truthy, he] <;> decide

/-- The catch handler of the messageId variant always reports failure
with a truthy (non-empty string) error. -/
theorem catchResult_id_error_truthy (msg : String) :
    (MessagesId.catchResult msg).structuredContent.success = false ∧
    ∃ e, (MessagesId.catchResult msg).structuredContent.error = some e ∧ e.truthy = true := by
  refine ⟨rfl, ⟨_, rfl, ?_⟩⟩
  rcases he : msg.isEmpty with _ | _ <;> simp [MessagesId.catchResult, JSVal.truthy, he] <;> decide

/-- The errorDetail of the upstream-failure branch is always truthy:
either rawBody.message is truthy and is kept, or the synthesized
template string is used and is non-empty. -/
theorem errorDetail_truthy (m : JSVal) (a b c : String) :
    (jsOr m (.str (a ++ ": " ++ b ++ " " ++ c))).truthy = true := by
  rcases hm : m.truthy with _ | _
  · simp [jsOr, hm]
    exact str_truthy_of_ne_empty (synthMsg_ne_empty a b c)
  · simp [jsOr, hm]

/-- With valid credentials, a non-2xx response makes the current helper
fail with a truthy error, whatever the body. -/
theorem non2xx_key_result (cfg : Config) (h : cfg.missingCredentials = false)
    (payload : JSVal) (errLabel : String) (status : Nat) (hs : okStatus status = false)
    (st : String) (body : BodyOutcome) :
    (Messages.sendApiRequest cfg payload errLabel (.response status st body)).1.structuredContent.success = false ∧
    ∃ e, (Messages.sendApiRequest cfg payload errLabel (.response status st body)).1.structuredContent.error = some e ∧
      e.truthy = true := by
  have hr : Messages.sendApiRequest cfg payload errLabel (.response status st body) =
      ((match Messages.tryBlock (.response status st body) errLabel with
        | .ok r => r
        | .error msg => Messages.catchResult msg), true) := by
    simp [Messages.sendApiRequest, h]
  rw [hr]
  cases body with
  | parseError msg => exact catchResult_key_error_truthy msg
  | parsed v =>
    have ht : Messages.tryBlock (.response status st (.parsed v)) errLabel =
        (do
          let m ← v.getProp "message"
          let errorDetail := jsOr m (.str (errLabel ++ ": " ++ toString status ++ " " ++ st))
          pure { isError := true
                 content := [textContent errorDetail]
                 structuredContent :=
                   { success := false, messageKey := none, error := some errorDetail } }) := by
      simp [Messages.tryBlock, hs]
    rw [ht]
    cases v with
    | undef => exact catchResult_key_error_truthy _
    | null => exact catchResult_key_error_truthy _
    | bool b => exact ⟨rfl, ⟨_, rfl, errorDetail_truthy _ _ _ _⟩⟩
    | num n => exact ⟨rfl, ⟨_, rfl, errorDetail_truthy _ _ _ _⟩⟩
    | str s => exact ⟨rfl, ⟨_, rfl, errorDetail_truthy _ _ _ _⟩⟩
    | arr xs => exact ⟨rfl, ⟨_, rfl, errorDetail_truthy _ _ _ _⟩⟩
    | obj fs => exact ⟨rfl, ⟨_, rfl, errorDetail_truthy _ _ _ _⟩⟩

/-- With valid credentials, a non-2xx response makes the messageId
variant fail with a truthy error, whatever the body. -/
theorem non2xx_id_result (cfg : Config) (h : cfg.missingCredentials = false)
    (payload : JSVal) (errLabel : String) (status : Nat) (hs : okStatus status = false)
    (st : String) (body : BodyOutcome) :
    (MessagesId.sendApiRequest cfg payload errLabel (.response status st body)).1.structuredContent.success = false ∧
    ∃ e, (MessagesId.sendApiRequest cfg payload errLabel (.response status st body)).1.structuredContent.error = some e ∧
      e.truthy = true := by
  have hr : MessagesId.sendApiRequest cfg payload errLabel (.response status st body) =
      ((match MessagesId.tryBlock (.response status st body) errLabel with
        | .ok r => r
        | .error msg => MessagesId.catchResult msg), true) := by
    simp [MessagesId.sendApiRequest, h]
  rw [hr]
  cases body with
  | parseError msg => exact catchResult_id_error_truthy msg
  | parsed v =>
    have ht : MessagesId.tryBlock (.response status st (.parsed v)) errLabel =
        (do
          let m ← v.getProp "message"
          let errorDetail := jsOr m (.str (errLabel ++ ": " ++ toString status ++ " " ++ st))
          pure { isError := true
                 content := [textContent errorDetail]
                 structuredContent :=
                   { success := false, messageId := none, fromMe := none, error := some errorDetail } }) := by
      simp [MessagesId.tryBlock, hs]
    rw [ht]
    cases v with
    | undef => exact catchResult_id_error_truthy _
    | null => exact catchResult_id_error_truthy _
    | bool b => exact ⟨rfl, ⟨_, rfl, errorDetail_truthy _ _ _ _⟩⟩
    | num n => exact ⟨rfl, ⟨_, rfl, errorDetail_truthy _ _ _ _⟩⟩
    | str s => exact ⟨rfl, ⟨_, rfl, errorDetail_truthy _ _ _ _⟩⟩
    | arr xs => exact ⟨rfl, ⟨_, rfl, errorDetail_truthy _ _ _ _⟩⟩
    | obj fs => exact ⟨rfl, ⟨_, rfl, errorDetail_truthy _ _ _ _⟩⟩

/-- C5 counterexample: at HTTP 500 with the body {message: 42} the
result does fail, but the error is the number 42 passed through by
errorDetail = responseData.message || template — not a string at all,
refuting the claim that the error is always a non-empty string taken
from rawBody.message or the synthesized template. -/
theorem C5_counterexample :
    (Messages.sendApiRequest goodCfg (.obj []) "Error al enviar mensaje"
        (.response 500 "Internal Server Error" (.parsed (.obj [("message", .num 42)])))).1.structuredContent.success = false ∧
    (Messages.sendApiRequest goodCfg (.obj []) "Error al enviar mensaje"
        (.response 500 "Internal Server Error" (.parsed (.obj [("message", .num 42)])))).1.structuredContent.error =
      some (.num 42) ∧
    JSVal.isNonemptyString (.num 42) = false :=
  ⟨rfl, rfl, rfl⟩

/-- C5 amended: with valid credentials, an upstream status outside
[200, 299] yields success false and a present, truthy error value in
both helper revisions, whatever the body (object, primitive, null, or
unparsable).  The error is the non-empty synthesized string, or a caught
non-empty exception message, whenever rawBody.message is absent or
falsy; a truthy rawBody.message is passed through as-is and need not be
a string, as the counterexample shows. -/
theorem C5_non2xx_failure (cfg : Config) (h : cfg.missingCredentials = false)
    (payload : JSVal) (errLabel : String) (status : Nat) (hs : okStatus status = false)
    (st : String) (body : BodyOutcome) :
    ((Messages.sendApiRequest cfg payload errLabel (.response status st body)).1.structuredContent.success = false ∧
      ∃ e, (Messages.sendApiRequest cfg payload errLabel (.response status st body)).1.structuredContent.error = some e ∧
        e.truthy = true) ∧
    ((MessagesId.sendApiRequest cfg payload errLabel (.response status st body)).1.structuredContent.success = false ∧
      ∃ e, (MessagesId.sendApiRequest cfg payload errLabel (.response status st body)).1.structuredContent.error = some e ∧
        e.truthy = true) :=
  ⟨non2xx_key_result cfg h payload errLabel status hs st body,
   non2xx_id_result cfg h payload errLabel status hs st body⟩

/-- C5 witness: a concrete 500 response with an empty object body fails
with a truthy error in both revisions. -/
theorem C5_non2xx_failure_witness :
    ((Messages.sendApiRequest goodCfg (.obj []) "Error al enviar mensaje"
        (.response 500 "Internal Server Error" (.parsed (.obj [])))).1.structuredContent.success = false ∧
      ∃ e, (Messages.sendApiRequest goodCfg (.obj []) "Error al enviar mensaje"
          (.response 500 "Internal Server Error" (.parsed (.obj [])))).1.structuredContent.error = some e ∧
        e.truthy = true) ∧
    ((MessagesId.sendApiRequest goodCfg (.obj []) "Error al enviar mensaje"
        (.response 500 "Internal Server Error" (.parsed (.obj [])))).1.structuredContent.success = false ∧
      ∃ e, (MessagesId.sendApiRequest goodCfg (.obj []) "Error al enviar mensaje"
          (.response 500 "Internal Server Error" (.parsed (.obj [])))).1.structuredContent.error = some e ∧
        e.truthy = true) :=
  C5_non2xx_failure goodCfg rfl (.obj []) "Error al enviar mensaje" 500 rfl
    "Internal Server Error" (.parsed (.obj []))

/-- With valid credentials the current helper is the catch-wrapped try
block: every thrown fault is converted into a structured catch result
and the transport is invoked exactly once. -/
theorem sendApiRequest_key_unfold (cfg : Config) (h : cfg.missingCredentials = false)
    (payload : JSVal) (errLabel : String) (outcome : FetchOutcome) :
    Messages.sendApiRequest cfg payload errLabel outcome =
      ((match Messages.tryBlock outcome errLabel with
        | .ok r => r
        | .error msg => Messages.catchResult msg), true) := by
  simp [Messages.sendApiRequest, h]

/-- C6 counterexample: with valid credentials, the empty object body at
HTTP 200 is a shape the adapter cannot extract anything from, yet the
result is success false with the error field absent — not the claimed
structured {success: false, error} result with a normalization failure
message. -/
theorem C6_counterexample :
    (Messages.executeSendMessage goodCfg sampleMessageInput
        (.response 200 "OK" (.parsed (.obj [])))).1.structuredContent.success = false ∧
    (Messages.executeSendMessage goodCfg sampleMessageInput
        (.response 200 "OK" (.parsed (.obj [])))).1.structuredContent.error = none :=
  ⟨rfl, rfl⟩

/-- C6 amended: the adapter never lets a fault escape — every outcome is
converted into a structured result (the whole exchange sits inside the
try/catch, as sendApiRequest_key_unfold exhibits) — but a 2xx body it
cannot extract from does NOT carry an error message: any non-nullish
body whose nested status is not PENDING yields success false with error
absent, while a nullish 2xx body (whose property access throws inside
the try) is caught and yields success false with a non-empty caught
error message. -/
theorem C6_unextractable_2xx
    (cfg : Config) (h : cfg.missingCredentials = false)
    (payload : JSVal) (errLabel : String) (status : Nat) (hs : okStatus status = true)
    (st : String) (v : JSVal) (hv : v.nullish = false)
    (hp : ((((v.optProp "content").optIndex 0).optProp "text").optProp "status").strictEqStr
        "PENDING" = false) :
    (Messages.sendApiRequest cfg payload errLabel
        (.response status st (.parsed v))).1.structuredContent.success = false ∧
    (Messages.sendApiRequest cfg payload errLabel
        (.response status st (.parsed v))).1.structuredContent.error = none ∧
    (Messages.sendApiRequest cfg payload errLabel
        (.response status st (.parsed .null))).1.structuredContent.success = false ∧
    ∃ msg, (Messages.sendApiRequest cfg payload errLabel
        (.response status st (.parsed .null))).1.structuredContent.error = some (.str msg) ∧
      msg ≠ "" := by
  have ht : ∀ w : JSVal, Messages.tryBlock (.response status st (.parsed w)) errLabel =
      (do
        let contentVal ← w.getProp "content"
        let messageData := (contentVal.optIndex 0).optProp "text"
        let k := messageData.optProp "key"
        let messageKey : Option Messages.MessageKeyOut :=
          if k.truthy then
            some { remoteJid := k.optProp "remoteJid"
                   fromMe := k.optProp "fromMe"
                   id := k.optProp "id"
                   participant := k.optProp "participant" }
          else none
        pure { isError := false
               content := []
               structuredContent :=
                 { success := (messageData.optProp "status").strictEqStr "PENDING"
                   messageKey := messageKey
                   error := none } }) := by
    intro w
    simp [Messages.tryBlock, hs]
  refine ⟨?_, ?_, ?_, ?_⟩ <;>
    rw [sendApiRequest_key_unfold cfg h payload errLabel, ht]
  · cases v <;> simp_all [JSVal.nullish, JSVal.getProp, Functor.map, Except.map]
  · cases v <;> simp_all [JSVal.nullish, JSVal.getProp, Functor.map, Except.map]
  · rfl
  · exact ⟨_, rfl, by decide⟩

/-- C6 witness: a concrete 200 response with an empty object body gives
success false with no error, and the null body variant gives a caught
non-empty error message. -/
theorem C6_unextractable_2xx_witness :
    (Messages.sendApiRequest goodCfg (.obj []) "Error al enviar mensaje"
        (.response 200 "OK" (.parsed (.obj [])))).1.structuredContent.success = false ∧
    (Messages.sendApiRequest goodCfg (.obj []) "Error al enviar mensaje"
        (.response 200 "OK" (.parsed (.obj [])))).1.structuredContent.error = none ∧
    (Messages.sendApiRequest goodCfg (.obj []) "Error al enviar mensaje"
        (.response 200 "OK" (.parsed .null))).1.structuredContent.success = false ∧
    ∃ msg, (Messages.sendApiRequest goodCfg (.obj []) "Error al enviar mensaje"
        (.response 200 "OK" (.parsed .null))).1.structuredContent.error = some (.str msg) ∧
      msg ≠ "" :=
  C6_unextractable_2xx goodCfg rfl (.obj []) "Error al enviar mensaje" 200 rfl "OK"
    (.obj []) rfl rfl

/-- C8 counterexample: the two-code-point string of two emoji (U+1F600
twice) passes the reactionText validation z.string().emoji().min(1),
refuting the claim that any two-character reaction — in particular a
string of two emoji — is rejected before the network call. -/
theorem C8_counterexample :
    reactionTextAccepted "😀😀" = true ∧ ("😀😀" : String).length = 2 := by
  constructor <;> decide

/-- C8 amended: the reactionText validation accepts exactly the
non-empty strings all of whose code points lie in the zod emoji
alternation (Extended_Pictographic or Emoji_Component) — one OR MORE
emoji, not exactly one grapheme; a multi-emoji reaction therefore passes
validation and reaches the network call, while a string containing any
non-emoji code point is still rejected beforehand. -/
theorem C8_emoji_one_or_more (s : String) :
    reactionTextAccepted s = true ↔ (s ≠ "" ∧ s.data.all zodEmojiChar = true) := by
  unfold reactionTextAccepted zodEmojiAccepts
  rcases hb : s.isEmpty with _ | _
  · have hne : s ≠ "" := fun hq => by subst hq; exact absurd hb (by decide)
    have hlen : 1 ≤ s.length := by
      have hd : s.data ≠ [] := fun hd => hne (String.ext hd)
      exact List.length_pos.mpr hd
    simp [hb, hne, hlen]
  · have hq : s = "" := (String.isEmpty_iff s).mp hb
    subst hq
    simp

/-- C8 witness: the amended characterization applied at the concrete
two-emoji string. -/
theorem C8_emoji_one_or_more_witness : reactionTextAccepted "😀😀" = true :=
  (C8_emoji_one_or_more "😀😀").mpr ⟨by decide, by decide⟩

/-- C9: with valid credentials and a PENDING upstream response carrying
a key, the result of executeSendReaction carries its data under the
field name messageKey — a name that is not among the fields declared by
sendReactionOutputSchema (success, messageId, error) — because the
shared helper of the current revision returns messageKey while the
declared reaction output schema still promises messageId. -/
theorem C9_reaction_returns_messageKey_field :
    "messageKey" ∈ (Messages.executeSendReaction goodCfg sampleReactionInput
        (.response 200 "OK" (.parsed (nestedBody "PENDING" sampleKeyJS)))).1.structuredContent.fieldNames ∧
    "messageKey" ∉ Messages.sendReactionOutputFields ∧
    (Messages.executeSendReaction goodCfg sampleReactionInput
        (.response 200 "OK" (.parsed (nestedBody "PENDING" sampleKeyJS)))).1.structuredContent.messageKey ≠
      none := by
  refine ⟨by decide, by decide, fun hq => Option.noConfusion hq⟩

/-- With valid credentials the messageId variant is the catch-wrapped
try block: every thrown fault is converted into a structured catch
result and the transport is invoked exactly once. -/
theorem sendApiRequest_id_unfold (cfg : Config) (h : cfg.missingCredentials = false)
    (payload : JSVal) (errLabel : String) (outcome : FetchOutcome) :
    MessagesId.sendApiRequest cfg payload errLabel outcome =
      ((match MessagesId.tryBlock outcome errLabel with
        | .ok r => r
        | .error msg => MessagesId.catchResult msg), true) := by
  simp [MessagesId.sendApiRequest, h]

/-- C10: in the messageId-returning variant, a 2xx non-nullish response
body whose extracted content[0].text has status PENDING but carries no
key.id and no key.fromMe is silently defaulted: the result is success
true with messageId the literal string Unknown, fromMe false, and no
error recorded. -/
theorem C10_silent_defaults
    (cfg : Config) (h : cfg.missingCredentials = false)
    (payload : JSVal) (errLabel : String)
    (status : Nat) (hs : okStatus status = true) (st : String)
    (v : JSVal) (hv : v.nullish = false)
    (hstat : ((((v.optProp "content").optIndex 0).optProp "text").optProp "status").strictEqStr
        "PENDING" = true)
    (hid : (((((v.optProp "content").optIndex 0).optProp "text").optProp "key").optProp "id") =
        .undef)
    (hfm : (((((v.optProp "content").optIndex 0).optProp "text").optProp "key").optProp "fromMe") =
        .undef) :
    (MessagesId.sendApiRequest cfg payload errLabel
        (.response status st (.parsed v))).1.structuredContent =
      { success := true, messageId := some (.str "Unknown"), fromMe := some (.bool false),
        error := none } := by
  have ht : ∀ w : JSVal, MessagesId.tryBlock (.response status st (.parsed w)) errLabel =
      (do
        let contentVal ← w.getProp "content"
        let messageData := (contentVal.optIndex 0).optProp "text"
        pure { isError := false
               content := []
               structuredContent :=
                 { success := (messageData.optProp "status").strictEqStr "PENDING"
                   messageId := some (jsOr ((messageData.optProp "key").optProp "id") (.str "Unknown"))
                   fromMe := some (jsOr ((messageData.optProp "key").optProp "fromMe") (.bool false))
                   error := none } }) := by
    intro w
    simp [MessagesId.tryBlock, hs]
  rw [sendApiRequest_id_unfold cfg h payload errLabel, ht]
  cases v <;>
    simp_all [JSVal.nullish, JSVal.getProp, Functor.map, Except.map, jsOr, JSVal.truthy]

/-- C10 witness: the concrete body whose text holds only the PENDING
status and no key at all. -/
theorem C10_silent_defaults_witness :
    (MessagesId.sendApiRequest goodCfg (.obj []) "Error al enviar mensaje"
        (.response 200 "OK"
          (.parsed (.obj [("content", .arr [.obj [("text", .obj [("status", .str "PENDING")])]])])))).1.structuredContent =
      { success := true, messageId := some (.str "Unknown"), fromMe := some (.bool false),
        error := none } :=
  C10_silent_defaults goodCfg rfl (.obj []) "Error al enviar mensaje" 200 rfl "OK"
    (.obj [("content", .arr [.obj [("text", .obj [("status", .str "PENDING")])]])]) rfl rfl rfl rfl
